import Mathlib

set_option maxHeartbeats 1000000

/-! Shallow embedding of the arXiv scraper module (`arxiv_scraper.py`): the
`Paper` record, the `is_earlier` id comparison, the RSS and API retrieval
loops, the RSS-then-API orchestrator, and `merge_paper_list`.  Datetimes are
seconds as `Int` (`timedelta(days=7)` is `604800`); the network clients
(feedparser, the arxiv search object) and the text-cleanup utilities
(`html.unescape`, the tag-strip and title regexes, `datetime.strptime`) are
external collaborators and enter as explicit inputs or function parameters.
Fallible code returns `Except String`. -/

/-- Paper record (dataclass `Paper`, lines 23-33): authors, title, abstract,
arxiv id. -/
structure Paper where
  authors : List String
  title : String
  abstract : String
  arxiv_id : String
deriving DecidableEq, Repr

/-- Dataclass-generated `__eq__` of `Paper`: the `@dataclass` decorator
compares the full field tuple (only `__hash__` is user-defined in the class
body). -/
def paperEq (p q : Paper) : Bool :=
  p.authors == q.authors && p.title == q.title && p.abstract == q.abstract &&
    p.arxiv_id == q.arxiv_id

/-- User-defined `Paper.__hash__` (lines 32-33): `hash(self.arxiv_id)`, the
ambient Python string hash applied to the `arxiv_id` field only.  The string
hash itself is kept abstract as the parameter `strHash`. -/
def paperHash (strHash : String → Int) (p : Paper) : Int :=
  strHash p.arxiv_id

/-- ASCII decimal digit value, as consumed by Python `int`. -/
def charDigit (c : Char) : Option Nat :=
  if c.isDigit then some (c.toNat - 48) else none

/-- Digit part of a Python integer literal after the optional sign: a
nonempty digit sequence in which single underscores may separate digits
(`int("1_0")` is `10`; leading, trailing or doubled underscores fail). -/
def pyDigitsAux (acc : Nat) : List Char → Option Nat
  | [] => some acc
  | '_' :: cs =>
    match cs with
    | [] => none
    | c :: rest =>
      match charDigit c with
      | some d => pyDigitsAux (acc * 10 + d) rest
      | none => none
  | c :: rest =>
    match charDigit c with
    | some d => pyDigitsAux (acc * 10 + d) rest
    | none => none

/-- Nonempty underscore-grouped digit sequence (see `pyDigitsAux`). -/
def pyDigits : List Char → Option Nat
  | [] => none
  | c :: rest =>
    match charDigit c with
    | some d => pyDigitsAux d rest
    | none => none

/-- Leading and trailing whitespace removal as Python `int` performs on its
argument (ASCII whitespace; Python additionally accepts further Unicode
space characters, irrelevant to arXiv id strings). -/
def pyStripChars (cs : List Char) : List Char :=
  ((cs.dropWhile Char.isWhitespace).reverse.dropWhile Char.isWhitespace).reverse

/-- Python `int(s)` on a string: optional surrounding whitespace, optional
sign, then underscore-grouped decimal digits; `none` models the `ValueError`
(caught by the bare `except` in `is_earlier`). -/
def pyInt (cs : List Char) : Option Int :=
  match pyStripChars cs with
  | [] => none
  | '+' :: rest => (pyDigits rest).map (fun n => (n : Int))
  | '-' :: rest => (pyDigits rest).map (fun n => -(n : Int))
  | rest => (pyDigits rest).map (fun n => (n : Int))

/-- Numeric key of an arXiv id as computed inside `is_earlier` (lines
42-43): `int(ts.split('v')[0].replace('.', ''))` — the characters before the
first `'v'` (the whole string when there is none), with every `'.'` removed,
fed to Python `int`. -/
def parse_id_num (s : String) : Option Int :=
  pyInt ((s.data.takeWhile (fun c => c != 'v')).filter (fun c => c != '.'))

/-- `is_earlier` (lines 36-46): numeric comparison of two arXiv ids; any
parse failure is swallowed by the bare `except` and yields `false`. -/
def is_earlier (ts1 ts2 : String) : Bool :=
  match parse_id_num ts1, parse_id_num ts2 with
  | some a, some b => decide (a < b)
  | _, _ => false

/-- Ids of a paper list; `set([paper.arxiv_id for paper in api_paper_list])`
is modeled as this list with membership via `contains`. -/
def idsOf (l : List Paper) : List String :=
  l.map (fun p => p.arxiv_id)

/-- `merge_paper_list` (lines 169-178): start from a copy of the API list
and append each RSS paper whose id is not in the API id set. -/
def merge_paper_list (paper_list api_paper_list : List Paper) : List Paper :=
  let api_set := idsOf api_paper_list
  paper_list.foldl
    (fun merged p => if api_set.contains p.arxiv_id then merged else merged ++ [p])
    api_paper_list

/-- Characters after the last `'/'`: models `link.split("/")[-1]` (`split`
never yields an empty list, so the last group always exists; it is empty when
the string ends in `'/'`). -/
def lastPathSegment (s : String) : String :=
  String.mk ((s.data.reverse.takeWhile (fun c => c != '/')).reverse)

/-- Replaces each newline by a space: models `re.sub("\n", " ", s)`. -/
def collapseNewlines (s : String) : String :=
  String.mk (s.data.map (fun c => if c == '\n' then ' ' else c))

/-- Replaces each newline by a comma and a space: models
`author.replace("\n", ", ")` on line 150. -/
def newlineToCommaSpace : List Char → List Char
  | [] => []
  | c :: cs =>
    if c == '\n' then ',' :: ' ' :: newlineToCommaSpace cs
    else c :: newlineToCommaSpace cs

/-- Splitting on a character, keeping empty groups: models Python
`str.split(sep)` for a one-character separator. -/
def splitOnChar (sep : Char) : List Char → List (List Char)
  | [] => [[]]
  | c :: cs =>
    match splitOnChar sep cs with
    | [] => [[]]
    | g :: gs => if c == sep then [] :: g :: gs else (c :: g) :: gs

/-- Python `s.split(",")` (line 150). -/
def pySplitComma (s : String) : List String :=
  (splitOnChar ',' s.data).map String.mk

/-- Python `str.strip()` (ASCII whitespace). -/
def pyStripStr (s : String) : String :=
  String.mk (pyStripChars s.data)

/-- Python `str.lower()` (ASCII letters). -/
def pyLower (s : String) : String :=
  String.mk (s.data.map Char.toLower)

/-- Does the needle occur at the head of the haystack? -/
def strHeadMatch : List Char → List Char → Bool
  | [], _ => true
  | _ :: _, [] => false
  | a :: as, b :: bs => a == b && strHeadMatch as bs

/-- Occurrence of the needle anywhere in the haystack. -/
def strOccursAux (needle : List Char) : List Char → Bool
  | [] => strHeadMatch needle []
  | c :: rest => strHeadMatch needle (c :: rest) || strOccursAux needle rest

/-- Python `needle in hay` on strings: substring occurrence (true for the
empty needle). -/
def pyInStr (needle hay : String) : Bool :=
  strOccursAux needle.data hay.data

/-- External text-cleanup collaborators (out-of-scope utilities per the
module boundary): the tag-strip regex `re.sub("<[^<]+?>", "", s)`,
`html.unescape`, and the title-suffix regex of line 156 that removes a
trailing `(arXiv:<id> [<category>])` annotation. -/
structure TextClean where
  stripTags : String → String
  unescape : String → String
  stripArxivSuffix : String → String

/-- One parsed feed entry, with exactly the fields the loop reads: `link`,
`title`, `summary`, the `author` string, the tag terms, and the
announcement type (`none` models an absent key, which
`paper.get("arxiv_announce_type", "")` turns into `""`; absent `tags` is the
empty list). -/
structure Entry where
  link : String
  title : String
  summary : String
  author : String
  tags : List String
  announce_type : Option String
deriving DecidableEq, Repr

/-- Parsed feed as returned by the feed collaborator: HTTP status, entries,
and the feed-level `updated` field (`none` models an absent key). -/
structure Feed where
  status : Int
  entries : List Entry
  updated : Option String
deriving DecidableEq, Repr

/-- Stored `FILTERING.force_primary` option of the configuration object;
`none` models an absent option, so that
`config.get("FILTERING", "force_primary", fallback="false")` yields the
stored value or the fallback `"false"`. -/
structure PyConfig where
  force_primary : Option String
deriving DecidableEq, Repr

/-- One search-API result, with exactly the fields the loop reads:
`get_short_id()`, the author names, `summary`, `title`, `categories`. -/
structure ApiResult where
  short_id : String
  authors : List String
  summary : String
  title : String
  categories : List String
deriving DecidableEq, Repr

/-- `force_primary` as computed on lines 138-141:
`config.get("FILTERING", "force_primary", fallback="false").strip().lower()`
compared with `"true"`. -/
def force_primary_of (cfg : PyConfig) : Bool :=
  pyLower (pyStripStr (cfg.force_primary.getD "false")) == "true"

/-- Error raised by `None.get(...)` when `config` is `None` at the
`force_primary` lookup (line 138). -/
def attributeErrorMsg : String :=
  "AttributeError"

/-- Paper built from a kept RSS entry (lines 147-161): authors split from
the comma/newline-joined author string with each name tag-stripped,
unescaped and stripped; title cleaned of the arXiv suffix and stripped;
summary tag-stripped, newline-collapsed and unescaped; id taken from the
last segment of the entry link. -/
def rss_entry_to_paper (tc : TextClean) (e : Entry) : Paper :=
  { authors := (pySplitComma (String.mk (newlineToCommaSpace e.author.data))).map
      (fun a => pyStripStr (tc.unescape (tc.stripTags a)))
    title := pyStripStr (tc.stripArxivSuffix e.title)
    abstract := tc.unescape (collapseNewlines (tc.stripTags e.summary))
    arxiv_id := lastPathSegment e.link }

/-- The entry loop of `get_papers_from_arxiv_rss` (lines 126-166): skip
non-`"new"` entries, then read `force_primary` from the configuration (with
`config = None` this is the `None.get` failure, surfaced as an error), skip
primary-category mismatches under `force_primary`, and keep the entry when
the requested area occurs in its primary category.  The author/summary/title
computations of lines 147-158 are pure, so applying them only in the kept
branch is observationally equal to the source order. -/
def rss_process_entries (area : String) (config : Option PyConfig) (tc : TextClean) :
    List Entry → Except String (List Paper)
  | [] => .ok []
  | e :: rest =>
    if e.announce_type.getD "" != "new" then
      rss_process_entries area config tc rest
    else
      let paper_area := e.tags.headD ""
      match config with
      | none => .error attributeErrorMsg
      | some cfg =>
        if area != paper_area && force_primary_of cfg then
          rss_process_entries area config tc rest
        else if pyInStr area paper_area then
          match rss_process_entries area config tc rest with
          | .error msg => .error msg
          | .ok pl => .ok (rss_entry_to_paper tc e :: pl)
        else
          rss_process_entries area config tc rest

/-- Feed-level timestamp (lines 113-124): the `updated` field is parsed only
when truthy (absent and empty strings give `None`); `parseTs` stands for
`datetime.strptime` with the fixed format, its failure branch already folded
into the `Option`. -/
def feedTimestamp (parseTs : String → Option Int) : Option String → Option Int
  | some u => if u == "" then none else parseTs u
  | none => none

/-- `get_papers_from_arxiv_rss` (lines 86-166).  The fetched feed is an
input (the feed client is a collaborator); the 304 and zero-entry branches
return an empty result with no continuation state, otherwise `last_id` is
the last link segment of the first entry and the entry loop runs.  Log
statements are omitted. -/
def get_papers_from_arxiv_rss (area : String) (config : Option PyConfig) (tc : TextClean)
    (parseTs : String → Option Int) (feed : Feed) :
    Except String (List Paper × Option Int × Option String) :=
  if feed.status == 304 then .ok ([], none, none)
  else
    match feed.entries with
    | [] => .ok ([], none, none)
    | e0 :: _ =>
      let last_id := lastPathSegment e0.link
      let timestamp := feedTimestamp parseTs feed.updated
      match rss_process_entries area config tc feed.entries with
      | .error msg => .error msg
      | .ok paper_list => .ok (paper_list, timestamp, some last_id)

/-- The result loop of `get_papers_from_arxiv_api` (lines 65-83): a result
is skipped when `last_id` is truthy (non-`None` and nonempty, Python `and`)
and `is_earlier(last_id, new_id)` holds; it is kept when the requested area
is in its category list, with the summary newline-collapsed and unescaped.
The search object is a collaborator, so the result sequence is an input. -/
def get_papers_from_arxiv_api (tc : TextClean) (area : String) (last_id : Option String) :
    List ApiResult → List Paper
  | [] => []
  | r :: rest =>
    let new_id := r.short_id
    let skip :=
      match last_id with
      | some lid => lid != "" && is_earlier lid new_id
      | none => false
    if skip then
      get_papers_from_arxiv_api tc area last_id rest
    else if r.categories.contains area then
      Paper.mk r.authors r.title (tc.unescape (collapseNewlines r.summary)) new_id ::
        get_papers_from_arxiv_api tc area last_id rest
    else
      get_papers_from_arxiv_api tc area last_id rest

/-- Reference (end) date of one API attempt (line 54):
`end_date = timestamp if timestamp else datetime.utcnow()` (a datetime is
always truthy, so only `None` falls back to the current time). -/
def api_reference (now : Int) (timestamp : Option Int) : Int :=
  timestamp.getD now

/-- Widened retry timestamp (lines 193-196):
`timestamp - timedelta(days=7)` when the RSS timestamp is present, else
`None`; 7 days are 604800 seconds. -/
def extend_timestamp : Option Int → Option Int
  | some t => some (t - 604800)
  | none => none

/-- Fallback chain of `get_papers_from_arxiv_rss_api` (lines 185-200) over a
given RSS result, with the API retriever abstracted as a function of its
`(timestamp, last_id)` arguments; the second component records the argument
pair of each API invocation, in call order. -/
def rss_api_orchestrate (rssResult : List Paper × Option Int × Option String)
    (api : Option Int → Option String → List Paper) :
    List Paper × List (Option Int × Option String) :=
  match rssResult with
  | (paper_list, timestamp, last_id) =>
    if paper_list.length == 0 then
      let api1 := api timestamp last_id
      if api1.length == 0 then
        let ext := extend_timestamp timestamp
        (api ext last_id, [(timestamp, last_id), (ext, last_id)])
      else
        (api1, [(timestamp, last_id)])
    else
      (paper_list, [])

/-- `get_papers_from_arxiv_rss_api` (lines 181-200): RSS first, then the
fallback chain on its result. -/
def get_papers_from_arxiv_rss_api (area : String) (config : Option PyConfig) (tc : TextClean)
    (parseTs : String → Option Int) (feed : Feed)
    (api : Option Int → Option String → List Paper) : Except String (List Paper) :=
  match get_papers_from_arxiv_rss area config tc parseTs feed with
  | .error msg => .error msg
  | .ok r => .ok (rss_api_orchestrate r api).1

/-- Acceptance condition of the RSS entry loop in one predicate: the
announcement type equals `"new"`, the entry is not excluded by
`force_primary`, and the requested area occurs in the primary category (the
first tag, or the empty string without tags). -/
def rss_entry_kept (area : String) (force_primary : Bool) (e : Entry) : Bool :=
  (e.announce_type.getD "" == "new") &&
    !((area != e.tags.headD "") && force_primary) &&
    pyInStr area (e.tags.headD "")

/-- Text cleanup collaborators instantiated with identities, for concrete
evaluations. -/
def idTextClean : TextClean :=
  { stripTags := fun s => s, unescape := fun s => s, stripArxivSuffix := fun s => s }

/-- Configuration with no stored `force_primary` option. -/
def examplePyConfig : PyConfig := { force_primary := none }

/-- Entry announced as a cross-listing (filtered before the configuration
lookup). -/
def exEntryCross : Entry :=
  { link := "https://arxiv.org/abs/2401.00001v1", title := "T", summary := "S",
    author := "A", tags := ["cs.AI"], announce_type := some "cross" }

/-- Entry announced as new. -/
def exEntryNew : Entry :=
  { link := "https://arxiv.org/abs/2401.00002v1", title := "T", summary := "S",
    author := "A", tags := ["cs.AI"], announce_type := some "new" }

/-- Feed whose only entry is a cross-listing. -/
def exFeedCross : Feed :=
  { status := 200, entries := [exEntryCross],
    updated := some "Mon, 01 Jan 2024 00:00:00 +0000" }

/-- Feed whose only entry is announced as new. -/
def exFeedNew : Feed :=
  { status := 200, entries := [exEntryNew], updated := none }

/-- Concrete paper. -/
def p1ex : Paper :=
  { authors := ["A"], title := "T1", abstract := "S1", arxiv_id := "2401.00001v1" }

/-- Concrete paper. -/
def p2ex : Paper :=
  { authors := ["B"], title := "T2", abstract := "S2", arxiv_id := "2401.00002v1" }

/-- Concrete paper. -/
def p3ex : Paper :=
  { authors := ["C"], title := "T3", abstract := "S3", arxiv_id := "2401.00003v1" }

/-- The merge loop is append-of-filter: folding the conditional append over
the RSS list appends exactly the papers whose id is not in the id set. -/
theorem merge_foldl_eq (api_set : List String) :
    ∀ l acc : List Paper,
      l.foldl (fun merged p => if api_set.contains p.arxiv_id then merged else merged ++ [p])
          acc =
        acc ++ l.filter (fun p => !(api_set.contains p.arxiv_id)) := by
  intro l
  induction l with
  | nil => intro acc; simp
  | cons p rest ih =>
    intro acc
    rw [List.foldl_cons, ih, List.filter_cons]
    by_cases h : p.arxiv_id ∈ api_set
    · simp [h]
    · simp [h]

/-- With a present configuration the entry loop never fails and keeps exactly
the entries satisfying `rss_entry_kept`, each converted by
`rss_entry_to_paper`. -/
theorem rss_process_entries_some_eq (area : String) (cfg : PyConfig) (tc : TextClean) :
    ∀ entries : List Entry,
      rss_process_entries area (some cfg) tc entries =
        .ok ((entries.filter (rss_entry_kept area (force_primary_of cfg))).map
          (rss_entry_to_paper tc)) := by
  intro entries
  induction entries with
  | nil => rfl
  | cons e rest ih =>
    by_cases hA : e.announce_type.getD "" = "new"
    · by_cases hBF : ¬area = e.tags.head?.getD "" ∧ force_primary_of cfg = true
      · simp [rss_process_entries, List.filter_cons, rss_entry_kept, hA, hBF.1, hBF.2, ih]
      · rw [not_and_or, not_not] at hBF
        simp only [Bool.not_eq_true] at hBF
        by_cases hP : pyInStr area (e.tags.head?.getD "") = true
        · simp [rss_process_entries, List.filter_cons, rss_entry_kept, hA, hBF, hP, ih]
          exact fun hne => hBF.resolve_left hne
        · simp [rss_process_entries, List.filter_cons, rss_entry_kept, hA, hBF, hP, ih]
    · simp [rss_process_entries, List.filter_cons, rss_entry_kept, hA, ih]

/-- With an absent configuration the entry loop fails as soon as some entry
has announcement type `"new"` (entries skipped by the announcement check
never reach the configuration lookup). -/
theorem rss_process_entries_none_error (area : String) (tc : TextClean) :
    ∀ entries : List Entry,
      (∃ e, e ∈ entries ∧ e.announce_type.getD "" = "new") →
      rss_process_entries area none tc entries = .error attributeErrorMsg := by
  intro entries
  induction entries with
  | nil => rintro ⟨e, he, _⟩; exact absurd he (List.not_mem_nil e)
  | cons e rest ih =>
    rintro ⟨f, hf, hnew⟩
    cases hA : e.announce_type.getD "" == "new" with
    | true => simp [rss_process_entries, bne, hA]
    | false =>
      have hfr : f ∈ rest := by
        cases hf with
        | head => simp [hnew] at hA
        | tail _ h => exact h
      simp [rss_process_entries, bne, hA, ih ⟨f, hfr, hnew⟩]

/-- C7: `is_earlier a b` is true exactly when both ids parse under the
source's numeric key (strip from the first `'v'`, drop dots, Python `int`)
and the first key is strictly smaller; it is irreflexive, and any parse
failure yields `false` instead of an exception. -/
theorem c7_is_earlier_spec (a b : String) :
    (is_earlier a b = true ↔
      ∃ m n : Int, parse_id_num a = some m ∧ parse_id_num b = some n ∧ m < n) ∧
    is_earlier a a = false ∧
    ((parse_id_num a = none ∨ parse_id_num b = none) → is_earlier a b = false) := by
  refine ⟨?_, ?_, ?_⟩
  · cases h1 : parse_id_num a <;> cases h2 : parse_id_num b <;>
      simp [is_earlier, h1, h2]
  · cases h : parse_id_num a <;> simp [is_earlier, h]
  · rintro (h | h)
    · cases h2 : parse_id_num b <;> simp [is_earlier, h, h2]
    · cases h1 : parse_id_num a <;> simp [is_earlier, h1, h]

/-- Witness for C7 at a concrete id. -/
theorem c7_is_earlier_spec_witness :
    is_earlier "2401.00001v1" "2401.00001v1" = false :=
  (c7_is_earlier_spec "2401.00001v1" "2401.00001v1").2.1

/-- C2 counterexample: two `Paper` records with the same `arxiv_id` but
different titles are not equal under the dataclass-generated `__eq__`, so
equality is not defined by `arxiv_id` alone. -/
theorem c2_counterexample :
    paperEq (Paper.mk ["A"] "T1" "S" "2401.00001v1")
        (Paper.mk ["A"] "T2" "S" "2401.00001v1") = false ∧
    (Paper.mk ["A"] "T1" "S" "2401.00001v1").arxiv_id =
      (Paper.mk ["A"] "T2" "S" "2401.00001v1").arxiv_id := by
  decide

/-- C2 (amended): hashing of `Paper` is defined by `arxiv_id` alone — equal
ids give equal hashes for every ambient string hash — while equality is the
dataclass default over all fields: two records are equal exactly when
authors, title, abstract and arxiv_id all agree. -/
theorem c2_identity_amended (strHash : String → Int) (p q : Paper) :
    (p.arxiv_id = q.arxiv_id → paperHash strHash p = paperHash strHash q) ∧
    (paperEq p q = true ↔ p = q) := by
  constructor
  · intro h; simp [paperHash, h]
  · cases p; cases q
    simp [paperEq, Paper.mk.injEq, and_assoc]

/-- Witness for C2 at a concrete hash function and paper. -/
theorem c2_identity_witness :
    paperHash (fun s => (s.length : Int)) p1ex = paperHash (fun s => (s.length : Int)) p1ex :=
  (c2_identity_amended (fun s => (s.length : Int)) p1ex p1ex).1 rfl

/-- C5: the merge returns the API papers in order followed by the RSS papers
whose id is absent from the API ids, in RSS order; in particular with
disjoint ids `merge([r1, r2], [a1])` is `[a1, r1, r2]`. -/
theorem c5_merge_order (rss api : List Paper) :
    merge_paper_list rss api =
      api ++ rss.filter (fun p => !((idsOf api).contains p.arxiv_id)) ∧
    ∀ r1 r2 a1 : Paper, r1.arxiv_id ≠ a1.arxiv_id → r2.arxiv_id ≠ a1.arxiv_id →
      merge_paper_list [r1, r2] [a1] = [a1, r1, r2] := by
  constructor
  · exact merge_foldl_eq (idsOf api) rss api
  · intro r1 r2 a1 h1 h2
    have e := merge_foldl_eq (idsOf [a1]) [r1, r2] [a1]
    rw [merge_paper_list]
    rw [e]
    simp [idsOf, List.filter_cons, h1, h2]

/-- Witness for C5 at concrete papers with disjoint ids. -/
theorem c5_merge_order_witness :
    merge_paper_list [p1ex, p2ex] [p3ex] = [p3ex, p1ex, p2ex] :=
  (c5_merge_order [p1ex, p2ex] [p3ex]).2 p1ex p2ex p3ex (by decide) (by decide)

/-- C6 counterexample: an input list with an internally duplicated id defeats
the merge's dedup — both copies survive, so the output is not unique by
id. -/
theorem c6_counterexample :
    ¬ (idsOf (merge_paper_list [p1ex, p1ex] [])).Nodup := by
  decide

/-- C6 (amended): when each input list is itself unique by id, the merged
list is unique by id. -/
theorem c6_merge_unique_amended (rss api : List Paper)
    (h1 : (idsOf rss).Nodup) (h2 : (idsOf api).Nodup) :
    (idsOf (merge_paper_list rss api)).Nodup := by
  have hm : merge_paper_list rss api =
      api ++ rss.filter (fun p => !((idsOf api).contains p.arxiv_id)) :=
    merge_foldl_eq (idsOf api) rss api
  rw [hm]
  simp only [idsOf, List.map_append]
  rw [List.nodup_append]
  refine ⟨h2, ?_, ?_⟩
  · exact List.Nodup.sublist (List.Sublist.map _ (List.filter_sublist rss)) h1
  · intro x hxapi hxfilt
    rcases List.mem_map.mp hxfilt with ⟨q, hqf, hqx⟩
    rcases List.mem_filter.mp hqf with ⟨hqrss, hq⟩
    have hq' : q.arxiv_id ∉ List.map (fun p => p.arxiv_id) api := by
      simpa [idsOf] using hq
    exact hq' (hqx ▸ hxapi)

/-- Witness for C6 at concrete unique-by-id lists. -/
theorem c6_merge_unique_witness :
    (idsOf (merge_paper_list [p1ex] [p3ex])).Nodup :=
  c6_merge_unique_amended [p1ex] [p3ex] (by decide) (by decide)

/-- C1: evaluation of the API filter at the failing input.  With
`last_id = "2401.00001v1"`, a result with the strictly newer id
`"2401.00002v1"` — which is not earlier than `last_id` — is skipped (empty
output), while a result with the strictly earlier id `"2312.99999v1"` is
kept: the code tests `is_earlier(last_id, new_id)` with the arguments
reversed relative to its own comment and the spec, so it skips newer-than-
`last_id` results and keeps earlier ones. -/
theorem c1_last_id_filter_eval :
    is_earlier "2401.00002v1" "2401.00001v1" = false ∧
    get_papers_from_arxiv_api idTextClean "cs.AI" (some "2401.00001v1")
      [{ short_id := "2401.00002v1", authors := ["A"], summary := "S", title := "T",
         categories := ["cs.AI"] }] = [] ∧
    is_earlier "2312.99999v1" "2401.00001v1" = true ∧
    get_papers_from_arxiv_api idTextClean "cs.AI" (some "2401.00001v1")
      [{ short_id := "2312.99999v1", authors := ["A"], summary := "S", title := "T",
         categories := ["cs.AI"] }] =
      [Paper.mk ["A"] "T" "S" "2312.99999v1"] := by
  refine ⟨by decide, by decide, by decide, by decide⟩

/-- C3 counterexample: with an absent RSS timestamp and an API that returns
nothing, the orchestrator does retry, but both attempts pass `None`, so the
second attempt's reference timestamp equals the first's (the current time)
instead of being pushed back 7 days. -/
theorem c3_counterexample :
    (rss_api_orchestrate ([], none, some "2401.00001v1") (fun _ _ => [])).2 =
      [(none, some "2401.00001v1"), (none, some "2401.00001v1")] ∧
    api_reference 0 none = 0 ∧
    (0 : Int) ≠ 0 - 604800 := by
  refine ⟨rfl, rfl, by decide⟩

/-- C3 (amended): when RSS and the first API attempt both return no papers,
the orchestrator retries exactly once more with the same `last_id` and
returns the second result; the second attempt's reference timestamp is 7
days earlier than the first's when the RSS timestamp is present, while with
an absent RSS timestamp the retry again passes `None` and its reference is
again the current time. -/
theorem c3_retry_amended (ts : Option Int) (lid : Option String)
    (api : Option Int → Option String → List Paper) (now : Int)
    (h : api ts lid = []) :
    rss_api_orchestrate ([], ts, lid) api =
      (api (extend_timestamp ts) lid, [(ts, lid), (extend_timestamp ts, lid)]) ∧
    (∀ t : Int, ts = some t →
      api_reference now (extend_timestamp ts) = api_reference now ts - 604800) ∧
    (ts = none → api_reference now (extend_timestamp ts) = now) := by
  refine ⟨?_, ?_, ?_⟩
  · simp [rss_api_orchestrate, h]
  · intro t ht; subst ht; simp [extend_timestamp, api_reference]
  · intro ht; subst ht; simp [extend_timestamp, api_reference]

/-- Witness for C3 at a concrete timestamp and empty API. -/
theorem c3_retry_witness :
    rss_api_orchestrate ([], some 100, none) (fun _ _ => []) =
      ([], [(some 100, none), (some (100 - 604800), none)]) :=
  (c3_retry_amended (some 100) none (fun _ _ => []) 0 rfl).1

/-- C4: a non-empty RSS list is returned unchanged with no API invocation;
an empty RSS list triggers exactly one API invocation with the RSS
timestamp and last id, and a second invocation — with the widened timestamp
and the same last id — exactly when the first returned the empty list. -/
theorem c4_orchestrator_fallback (papers : List Paper) (ts : Option Int)
    (lid : Option String) (api : Option Int → Option String → List Paper) :
    (papers ≠ [] → rss_api_orchestrate (papers, ts, lid) api = (papers, [])) ∧
    (papers = [] → api ts lid ≠ [] →
      rss_api_orchestrate (papers, ts, lid) api = (api ts lid, [(ts, lid)])) ∧
    (papers = [] → api ts lid = [] →
      rss_api_orchestrate (papers, ts, lid) api =
        (api (extend_timestamp ts) lid, [(ts, lid), (extend_timestamp ts, lid)])) := by
  refine ⟨?_, ?_, ?_⟩
  · intro h
    cases papers with
    | nil => exact absurd rfl h
    | cons p ps => simp [rss_api_orchestrate]
  · intro h hne
    subst h
    simp [rss_api_orchestrate, hne]
  · intro h he
    subst h
    simp [rss_api_orchestrate, he]

/-- Witness for C4 at a concrete non-empty RSS list. -/
theorem c4_orchestrator_fallback_witness :
    rss_api_orchestrate ([p1ex], none, none) (fun _ _ => []) = ([p1ex], []) :=
  (c4_orchestrator_fallback [p1ex] none none (fun _ _ => [])).1 (by decide)

/-- C8: with a present configuration, a feed that is not `304` and has at
least one entry, the RSS retriever succeeds and its paper list consists of
exactly the entries whose announcement type is `"new"`, which are not
excluded by `force_primary`, and whose primary category contains the
requested area as a substring — each converted to a `Paper`. -/
theorem c8_rss_entry_filter (area : String) (cfg : PyConfig) (tc : TextClean)
    (parseTs : String → Option Int) (feed : Feed) (e0 : Entry) (rest : List Entry)
    (h304 : feed.status ≠ 304) (hent : feed.entries = e0 :: rest) :
    get_papers_from_arxiv_rss area (some cfg) tc parseTs feed =
      .ok ((feed.entries.filter (rss_entry_kept area (force_primary_of cfg))).map
            (rss_entry_to_paper tc),
           feedTimestamp parseTs feed.updated,
           some (lastPathSegment e0.link)) := by
  have hs : (feed.status == 304) = false := by simp [h304]
  simp [get_papers_from_arxiv_rss, hs, hent, rss_process_entries_some_eq]

/-- Witness for C8 at a concrete feed with one `"new"` entry. -/
theorem c8_rss_entry_filter_witness :
    get_papers_from_arxiv_rss "cs.AI" (some examplePyConfig) idTextClean (fun _ => none)
        exFeedNew =
      .ok ((exFeedNew.entries.filter
              (rss_entry_kept "cs.AI" (force_primary_of examplePyConfig))).map
            (rss_entry_to_paper idTextClean),
           feedTimestamp (fun _ => none) exFeedNew.updated,
           some (lastPathSegment exEntryNew.link)) :=
  c8_rss_entry_filter "cs.AI" examplePyConfig idTextClean (fun _ => none) exFeedNew
    exEntryNew [] (by decide) rfl

/-- C9 counterexample: with `config = None`, a status of 200 and one entry —
whose announcement type is not `"new"` — the function does not raise: the
`continue` of the announcement check skips the entry before the
`config.get` line, and an empty paper list is returned. -/
theorem c9_counterexample :
    exFeedCross.status ≠ 304 ∧ exFeedCross.entries ≠ [] ∧
    get_papers_from_arxiv_rss "cs.AI" none idTextClean (fun _ => none) exFeedCross =
      .ok ([], none, some "2401.00001v1") :=
  ⟨by decide, by decide, rfl⟩

/-- C9 (amended): with `config = None`, a feed status other than 304 and at
least one entry whose announcement type equals `"new"`, the function fails
at the `force_primary` lookup (the `None.get` attribute error) instead of
applying the documented default. -/
theorem c9_none_config_amended (area : String) (tc : TextClean)
    (parseTs : String → Option Int) (feed : Feed)
    (h304 : feed.status ≠ 304)
    (hnew : ∃ e, e ∈ feed.entries ∧ e.announce_type.getD "" = "new") :
    get_papers_from_arxiv_rss area none tc parseTs feed = .error attributeErrorMsg := by
  have hs : (feed.status == 304) = false := by simp [h304]
  obtain ⟨f, hf, hfn⟩ := hnew
  cases hent : feed.entries with
  | nil => rw [hent] at hf; exact absurd hf (List.not_mem_nil f)
  | cons e0 rest =>
    rw [hent] at hf
    simp [get_papers_from_arxiv_rss, hs, hent,
      rss_process_entries_none_error area tc (e0 :: rest) ⟨f, hf, hfn⟩]

/-- Witness for C9 at a concrete feed with one `"new"` entry. -/
theorem c9_none_config_witness :
    get_papers_from_arxiv_rss "cs.AI" none idTextClean (fun _ => none) exFeedNew =
      .error attributeErrorMsg :=
  c9_none_config_amended "cs.AI" idTextClean (fun _ => none) exFeedNew (by decide)
    ⟨exEntryNew, by simp [exFeedNew], rfl⟩

/-- C10: whenever the feed status is not 304 and there is at least one
entry, any successful return of the RSS retriever carries
`last_id = some(<last link segment of the first entry>)`, independent of the
entry filtering; concretely, a feed whose only entry is filtered out yields
an empty paper list with a non-`None` timestamp and `last_id`, and the
orchestrator's fallback invokes the API with exactly those continuation
values. -/
theorem c10_last_id_before_filtering :
    (∀ (area : String) (config : Option PyConfig) (tc : TextClean)
        (parseTs : String → Option Int) (feed : Feed) (e0 : Entry) (rest : List Entry)
        (papers : List Paper) (ts : Option Int) (lid : Option String),
        feed.status ≠ 304 → feed.entries = e0 :: rest →
        get_papers_from_arxiv_rss area config tc parseTs feed = .ok (papers, ts, lid) →
        lid = some (lastPathSegment e0.link)) ∧
    (get_papers_from_arxiv_rss "cs.AI" (some examplePyConfig) idTextClean
        (fun _ => some 42) exFeedCross = .ok ([], some 42, some "2401.00001v1") ∧
      (rss_api_orchestrate ([], some 42, some "2401.00001v1") (fun _ _ => [])).2 =
        [(some 42, some "2401.00001v1"), (some (42 - 604800), some "2401.00001v1")]) := by
  constructor
  · intro area config tc parseTs feed e0 rest papers ts lid h304 hent hok
    have hs : (feed.status == 304) = false := by simp [h304]
    simp only [get_papers_from_arxiv_rss, hs, Bool.false_eq_true, if_false, hent] at hok
    cases hproc : rss_process_entries area config tc (e0 :: rest) with
    | error msg =>
      rw [hproc] at hok
      exact absurd hok (by simp)
    | ok pl =>
      rw [hproc] at hok
      simp only [Except.ok.injEq, Prod.mk.injEq] at hok
      exact hok.2.2.symm
  · exact ⟨rfl, rfl⟩

/-- Witness for C10 at the concrete all-filtered feed. -/
theorem c10_last_id_before_filtering_witness :
    (some "2401.00001v1" : Option String) = some (lastPathSegment exEntryCross.link) :=
  c10_last_id_before_filtering.1 "cs.AI" (some examplePyConfig) idTextClean
    (fun _ => some 42) exFeedCross exEntryCross [] [] (some 42) (some "2401.00001v1")
    (by decide) rfl rfl

